import Mathlib

/-
Verification development for the WellActually-AI core.

Shallow embedding of the analysed source modules:
 * cores/analysis/rules/srp/srp_scorer.py      (SRPScore, SPRScorer.calculate_score)
 * cores/analysis/rules/base.py                (ThresholdRule)
 * cores/analysis/rules/srp/method_analyzer.py (MethodAnalyzer.calculate_concert_diversity)
 * cores/analysis/rules/srp/semantic_analyzer.py (SemanticAnalyzer.cluster_methods)
 * cores/persistence/cache.py                  (CacheManager AST normalization/hashing)
 * cores/persistence/lance_manager.py + facade.py (suppression ledger)
 * cores/structure/graph/kuzu_manager.py       (delete_file)
 * cores/structure/queries.py                  (find_circular_dependencies)

Python floats are modelled as exact rationals, except where the source takes a
real square root, which is modelled over the reals.
-/

set_option maxHeartbeats 1000000

namespace WellActually

/-! ## SRP scorer — cores/analysis/rules/srp/srp_scorer.py -/

/-- Breakdown of SRP violation score (dataclass `SRPScore`). -/
structure SRPScore where
  total_score : ℚ
  semantic_score : ℚ
  dependency_score : ℚ
  naming_score : ℚ
  method_count_score : ℚ
  num_methods : ℤ
  num_semantic_clusters : ℤ
  num_dependency_concerns : ℤ
  num_naming_categories : ℤ
  layer_violations : List String
deriving Repr, DecidableEq

/-- Property `SRPScore.is_violation`: `self.total_score >= 0.7`. -/
def SRPScore.is_violation (s : SRPScore) : Bool :=
  s.total_score ≥ 0.7

/-- Property `SRPScore.severity`: the if/elif chain over `total_score`. -/
def SRPScore.severity (s : SRPScore) : String :=
  if s.total_score ≥ 0.9 then "critical"
  else if s.total_score ≥ 0.8 then "high"
  else if s.total_score ≥ 0.7 then "medium"
  else "low"

/-- Class constant `SPRScorer.SEMANTIC_WEIGHT`. -/
def SEMANTIC_WEIGHT : ℚ := 0.4

/-- Class constant `SPRScorer.DEPENDENCY_WEIGHT`. -/
def DEPENDENCY_WEIGHT : ℚ := 0.3

/-- Class constant `SPRScorer.NAMING_WEIGHT`. -/
def NAMING_WEIGHT : ℚ := 0.2

/-- Class constant `SPRScorer.METHOD_COUNT_WEIGHT`. -/
def METHOD_COUNT_WEIGHT : ℚ := 0.1

/-- Method `SPRScorer.calculate_score`, translated branch for branch. -/
def calculate_score (semantic_diversity dependency_diversity naming_diversity : ℚ)
    (method_count expected_tolerance : ℤ)
    (num_semantic_clusters num_dependency_concerns num_naming_categories : ℤ)
    (layer_violations : List String) : SRPScore :=
  let method_count_score : ℚ :=
    if expected_tolerance > 0 then
      let ratio : ℚ := (method_count : ℚ) / (expected_tolerance : ℚ)
      if ratio ≤ 1.0 then 0.0
      else if ratio ≤ 2.0 then 0.3
      else min (0.6 + (ratio - 2.0) * 0.1) 1.0
    else 0.0
  let layer_violation_boost : ℚ := if layer_violations ≠ [] then 0.2 else 0.0
  let total_score : ℚ :=
    SEMANTIC_WEIGHT * semantic_diversity
      + DEPENDENCY_WEIGHT * dependency_diversity
      + NAMING_WEIGHT * naming_diversity
      + METHOD_COUNT_WEIGHT * method_count_score
      + layer_violation_boost
  let total_clamped : ℚ := min (max total_score 0.0) 1.0
  { total_score := total_clamped
    semantic_score := semantic_diversity
    dependency_score := dependency_diversity
    naming_score := naming_diversity
    method_count_score := method_count_score
    num_methods := method_count
    num_semantic_clusters := num_semantic_clusters
    num_dependency_concerns := num_dependency_concerns
    num_naming_categories := num_naming_categories
    layer_violations := layer_violations }

/-! ## Generic threshold rule — cores/analysis/rules/base.py -/

/-- An item drawn from the analysis context: the fields `ThresholdRule.analyze`
reads from the item dictionary (`item_name_key` entry, `start_line`, metric). -/
structure Item where
  name : String
  start_line : ℤ
  metric : ℤ
deriving Repr, DecidableEq

/-- Dataclass `Violation` from cores/analysis/rules/base.py. -/
structure Violation where
  rule_name : String
  severity : String
  file_path : String
  line_number : ℤ
  code_snippet : String
  message : String
  context : Option String
deriving Repr, DecidableEq

/-- A concrete `ThresholdRule` instance: the configured threshold together with
the data supplied by the abstract members (`name`, `item_name_key`,
`format_snippet`, `format_message`). -/
structure ThresholdRule where
  threshold : ℤ
  name : String
  item_name_key : String
  format_snippet : Item → String
  format_message : Item → ℤ → String

/-- Method `ThresholdRule.calculate_severity`. -/
def ThresholdRule.calculate_severity (r : ThresholdRule) (metric_value : ℤ) : String :=
  if metric_value > r.threshold * 3 then "critical"
  else if metric_value > r.threshold * 2 then "high"
  else if metric_value > r.threshold then "medium"
  else "low"

/-- Method `ThresholdRule.analyze`: the loop appending a `Violation` for every
item whose metric strictly exceeds the threshold.  Python's
`self.item_name_key.title()` is modelled by `String.capitalize` (the keys used
are single lowercase words). -/
def ThresholdRule.analyze (r : ThresholdRule) (file_path : String)
    (items : List Item) : List Violation :=
  items.foldl
    (fun violations item =>
      if item.metric > r.threshold then
        violations ++
          [{ rule_name := r.name
             severity := r.calculate_severity item.metric
             file_path := file_path
             line_number := item.start_line
             code_snippet := r.format_snippet item
             message := r.format_message item item.metric
             context := some (r.item_name_key.capitalize ++ ": " ++ item.name) }]
      else violations)
    []

/-! ## Facts about the scorer and the threshold rule -/

lemma is_violation_iff (sc : SRPScore) :
    sc.is_violation = true ↔ 0.7 ≤ sc.total_score := by
  simp [SRPScore.is_violation, ge_iff_le]

lemma severity_critical_iff (sc : SRPScore) :
    sc.severity = "critical" ↔ 0.9 ≤ sc.total_score := by
  unfold SRPScore.severity
  split_ifs with h1 h2 h3
  · exact ⟨fun _ => h1, fun _ => rfl⟩
  · exact ⟨fun h => absurd h (by decide), fun h => absurd h h1⟩
  · exact ⟨fun h => absurd h (by decide), fun h => absurd h h1⟩
  · exact ⟨fun h => absurd h (by decide), fun h => absurd h h1⟩

lemma severity_high_iff (sc : SRPScore) :
    sc.severity = "high" ↔ 0.8 ≤ sc.total_score ∧ sc.total_score < 0.9 := by
  unfold SRPScore.severity
  split_ifs with h1 h2 h3
  · exact ⟨fun h => absurd h (by decide), fun h => absurd h1 (not_le.mpr h.2)⟩
  · exact ⟨fun _ => ⟨h2, not_le.mp h1⟩, fun _ => rfl⟩
  · exact ⟨fun h => absurd h (by decide), fun h => absurd h.1 h2⟩
  · exact ⟨fun h => absurd h (by decide),
      fun h => absurd (le_trans (by norm_num) h.1) h3⟩

lemma severity_medium_iff (sc : SRPScore) :
    sc.severity = "medium" ↔ 0.7 ≤ sc.total_score ∧ sc.total_score < 0.8 := by
  unfold SRPScore.severity
  split_ifs with h1 h2 h3
  · exact ⟨fun h => absurd h (by decide),
      fun h => absurd h1 (not_le.mpr (lt_of_lt_of_le h.2 (by norm_num)))⟩
  · exact ⟨fun h => absurd h (by decide), fun h => absurd h2 (not_le.mpr h.2)⟩
  · exact ⟨fun _ => ⟨h3, not_le.mp h2⟩, fun _ => rfl⟩
  · exact ⟨fun h => absurd h (by decide), fun h => absurd h.1 h3⟩

/-- C3: for positive tolerance the SRP total is the weighted sum
0.4·semantic + 0.3·dependency + 0.2·naming + 0.1·method-count-score plus a flat
0.2 exactly when the layer-violation list is non-empty, clamped to [0,1]; the
method-count score follows the ratio banding 0.0 / 0.3 /
min(0.6 + 0.1·(ratio − 2), 1.0); `is_violation` holds iff total ≥ 0.7 and the
severity bands are critical ≥ 0.9, high [0.8, 0.9), medium [0.7, 0.8). -/
theorem calculate_score_spec (s d n : ℚ) (mc tol nsc ndc nnc : ℤ) (lv : List String)
    (htol : 0 < tol) :
    (calculate_score s d n mc tol nsc ndc nnc lv).method_count_score =
      (if (mc : ℚ) / (tol : ℚ) ≤ 1 then 0
       else if (mc : ℚ) / (tol : ℚ) ≤ 2 then 0.3
       else min (0.6 + 0.1 * ((mc : ℚ) / (tol : ℚ) - 2)) 1)
  ∧ (calculate_score s d n mc tol nsc ndc nnc lv).total_score =
      min (max (0.4 * s + 0.3 * d + 0.2 * n
          + 0.1 * (calculate_score s d n mc tol nsc ndc nnc lv).method_count_score
          + (if lv ≠ [] then 0.2 else 0)) 0) 1
  ∧ ((calculate_score s d n mc tol nsc ndc nnc lv).is_violation = true ↔
      0.7 ≤ (calculate_score s d n mc tol nsc ndc nnc lv).total_score)
  ∧ ((calculate_score s d n mc tol nsc ndc nnc lv).severity = "critical" ↔
      0.9 ≤ (calculate_score s d n mc tol nsc ndc nnc lv).total_score)
  ∧ ((calculate_score s d n mc tol nsc ndc nnc lv).severity = "high" ↔
      0.8 ≤ (calculate_score s d n mc tol nsc ndc nnc lv).total_score ∧
      (calculate_score s d n mc tol nsc ndc nnc lv).total_score < 0.9)
  ∧ ((calculate_score s d n mc tol nsc ndc nnc lv).severity = "medium" ↔
      0.7 ≤ (calculate_score s d n mc tol nsc ndc nnc lv).total_score ∧
      (calculate_score s d n mc tol nsc ndc nnc lv).total_score < 0.8) := by
  refine ⟨?_, ?_, is_violation_iff _, severity_critical_iff _, severity_high_iff _,
    severity_medium_iff _⟩
  · simp only [calculate_score, if_pos htol]
    norm_num
    split_ifs <;> [rfl; rfl; (congr 1; ring)]
  · simp only [calculate_score, SEMANTIC_WEIGHT, DEPENDENCY_WEIGHT, NAMING_WEIGHT,
      METHOD_COUNT_WEIGHT]
    norm_num

/-- Witness for `calculate_score_spec` at tolerance 1, method count 4, one layer
violation and all diversities 1. -/
theorem calculate_score_spec_witness :
    (0 : ℤ) < 1 ∧
    ((calculate_score 1 1 1 4 1 0 0 0 ["x"]).method_count_score =
      (if ((4 : ℤ) : ℚ) / ((1 : ℤ) : ℚ) ≤ 1 then 0
       else if ((4 : ℤ) : ℚ) / ((1 : ℤ) : ℚ) ≤ 2 then 0.3
       else min (0.6 + 0.1 * (((4 : ℤ) : ℚ) / ((1 : ℤ) : ℚ) - 2)) 1)
  ∧ (calculate_score 1 1 1 4 1 0 0 0 ["x"]).total_score =
      min (max (0.4 * 1 + 0.3 * 1 + 0.2 * 1
          + 0.1 * (calculate_score 1 1 1 4 1 0 0 0 ["x"]).method_count_score
          + (if (["x"] : List String) ≠ [] then 0.2 else 0)) 0) 1
  ∧ ((calculate_score 1 1 1 4 1 0 0 0 ["x"]).is_violation = true ↔
      0.7 ≤ (calculate_score 1 1 1 4 1 0 0 0 ["x"]).total_score)
  ∧ ((calculate_score 1 1 1 4 1 0 0 0 ["x"]).severity = "critical" ↔
      0.9 ≤ (calculate_score 1 1 1 4 1 0 0 0 ["x"]).total_score)
  ∧ ((calculate_score 1 1 1 4 1 0 0 0 ["x"]).severity = "high" ↔
      0.8 ≤ (calculate_score 1 1 1 4 1 0 0 0 ["x"]).total_score ∧
      (calculate_score 1 1 1 4 1 0 0 0 ["x"]).total_score < 0.9)
  ∧ ((calculate_score 1 1 1 4 1 0 0 0 ["x"]).severity = "medium" ↔
      0.7 ≤ (calculate_score 1 1 1 4 1 0 0 0 ["x"]).total_score ∧
      (calculate_score 1 1 1 4 1 0 0 0 ["x"]).total_score < 0.8)) :=
  ⟨by decide, calculate_score_spec 1 1 1 4 1 0 0 0 ["x"] (by decide)⟩

/-- C10: when the expected tolerance is not positive, the ratio branch is
skipped, the method-count score is 0.0 and the total is still computed. -/
theorem calculate_score_tolerance_guard (s d n : ℚ) (mc tol nsc ndc nnc : ℤ)
    (lv : List String) (htol : tol ≤ 0) :
    (calculate_score s d n mc tol nsc ndc nnc lv).method_count_score = 0
  ∧ (calculate_score s d n mc tol nsc ndc nnc lv).total_score =
      min (max (0.4 * s + 0.3 * d + 0.2 * n + (if lv ≠ [] then 0.2 else 0)) 0) 1 := by
  have h : ¬ (tol > 0) := not_lt.mpr htol
  constructor
  · simp only [calculate_score, if_neg h]
    norm_num
  · simp only [calculate_score, if_neg h, SEMANTIC_WEIGHT, DEPENDENCY_WEIGHT,
      NAMING_WEIGHT, METHOD_COUNT_WEIGHT]
    norm_num

/-- Witness for `calculate_score_tolerance_guard` at tolerance 0. -/
theorem calculate_score_tolerance_guard_witness :
    (0 : ℤ) ≤ 0 ∧ (calculate_score 1 1 1 7 0 0 0 0 []).method_count_score = 0 :=
  ⟨le_refl 0, (calculate_score_tolerance_guard 1 1 1 7 0 0 0 0 [] (le_refl 0)).1⟩

lemma foldl_append_filter {α β : Type} (p : α → Prop) [DecidablePred p] (f : α → β) :
    ∀ (l : List α) (acc : List β),
      l.foldl (fun bs a => if p a then bs ++ [f a] else bs) acc
        = acc ++ (l.filter (fun a => decide (p a))).map f := by
  intro l
  induction l with
  | nil => intro acc; simp
  | cons a l ih =>
    intro acc
    simp only [List.foldl_cons, List.filter_cons]
    by_cases h : p a
    · rw [if_pos h, ih]; simp [h]
    · rw [if_neg h, ih]; simp [h]

/-- C4: `analyze` reports exactly the items whose metric strictly exceeds the
threshold; among reported items the severity is critical iff metric > 3·t, high
iff 2·t < metric ≤ 3·t, medium iff metric ≤ 2·t; with threshold 10, metric 11
is medium and metric 31 is critical. -/
theorem threshold_rule_spec (r : ThresholdRule) (fp : String) (items : List Item) :
    r.analyze fp items =
      (items.filter (fun it => decide (it.metric > r.threshold))).map
        (fun item =>
          { rule_name := r.name
            severity := r.calculate_severity item.metric
            file_path := fp
            line_number := item.start_line
            code_snippet := r.format_snippet item
            message := r.format_message item item.metric
            context := some (r.item_name_key.capitalize ++ ": " ++ item.name) })
  ∧ (∀ m : ℤ, r.threshold < m →
      ((r.calculate_severity m = "critical" ↔ r.threshold * 3 < m)
       ∧ (r.calculate_severity m = "high" ↔ r.threshold * 2 < m ∧ m ≤ r.threshold * 3)
       ∧ (r.calculate_severity m = "medium" ↔ m ≤ r.threshold * 2)))
  ∧ (r.threshold = 10 →
      r.calculate_severity 11 = "medium" ∧ r.calculate_severity 31 = "critical") := by
  refine ⟨?_, ?_, ?_⟩
  · exact foldl_append_filter _ _ items []
  · intro m hm
    unfold ThresholdRule.calculate_severity
    split_ifs with h1 h2 _h3 <;>
      refine ⟨⟨fun hs => ?_, fun hc => ?_⟩, ⟨fun hs => ?_, fun hc => ?_⟩,
        ⟨fun hs => ?_, fun hc => ?_⟩⟩ <;>
      first
        | rfl
        | omega
        | (exact absurd hs (by decide))
  · intro h
    unfold ThresholdRule.calculate_severity
    rw [h]
    refine ⟨?_, ?_⟩ <;> norm_num

/-- Concrete `ThresholdRule` instance mirroring `ComplexityRule` with
threshold 10 (name "COMPLEXITY", item-name key "jname"). -/
def complexityRule10 : ThresholdRule :=
  { threshold := 10
    name := "COMPLEXITY"
    item_name_key := "jname"
    format_snippet := fun item => "def " ++ item.name ++ "(...):"
    format_message := fun _ m => "Function has complexity " ++ toString m ++ " (threshold: 10)" }

/-- Witness for `threshold_rule_spec`: the complexity rule at threshold 10 maps
metric 11 to medium and metric 31 to critical. -/
theorem threshold_rule_spec_witness :
    complexityRule10.threshold = 10 ∧
    complexityRule10.calculate_severity 11 = "medium" ∧
    complexityRule10.calculate_severity 31 = "critical" :=
  ⟨rfl, ((threshold_rule_spec complexityRule10 "a.py" []).2.2 rfl).1,
    ((threshold_rule_spec complexityRule10 "a.py" []).2.2 rfl).2⟩

/-! ## AST normalization cache — cores/persistence/cache.py -/

/-- Python constant values appearing in `ast.Constant` nodes. -/
inductive Const where
  | str (s : String)
  | int (n : ℤ)
  | bool (b : Bool)
  | noneVal
deriving Repr, DecidableEq

/-- Expression contexts (`ast.Load` / `ast.Store`). -/
inductive Ctx where
  | load
  | store
deriving Repr, DecidableEq

/-- Fragment of the Python abstract syntax tree relevant to the cache: the
statement and expression forms handled by `CacheManager._normalize_ast`.
Function parameters are `ast.arg` objects carrying a plain identifier (they are
not `ast.Name` nodes), modelled as strings. -/
inductive Node where
  | module (body : List Node)
  | functionDef (name : String) (args : List String) (body : List Node)
  | ret (value : Node)
  | retNone
  | assign (targets : List Node) (value : Node)
  | exprStmt (value : Node)
  | ifStmt (test : Node) (body orelse : List Node)
  | whileStmt (test : Node) (body orelse : List Node)
  | forStmt (target iter : Node) (body orelse : List Node)
  | passStmt
  | binOp (left : Node) (op : String) (right : Node)
  | call (func : Node) (args : List Node)
  | attrExpr (value : Node) (attrName : String) (ctx : Ctx)
  | nameExpr (id : String) (ctx : Ctx)
  | constant (value : Const)
deriving Repr

mutual

/-- In-place effect of `CacheManager._normalize_ast` on a node: every
`ast.Name` identifier becomes "VAR".  A standalone string-literal statement is
left untouched: the `ast.Pass()` node returned for it is discarded by the
caller (the child loop over `ast.iter_child_nodes` ignores return values) and
the early `return` skips that statement's own child loop. -/
def normMut : Node → Node
  | .nameExpr _ ctx => .nameExpr "VAR" ctx
  | .exprStmt v =>
    match v with
    | .constant (.str s) => .exprStmt (.constant (.str s))
    | v => .exprStmt (normMut v)
  | .module body => .module (normMutList body)
  | .functionDef nm args body => .functionDef nm args (normMutList body)
  | .ret v => .ret (normMut v)
  | .retNone => .retNone
  | .assign ts v => .assign (normMutList ts) (normMut v)
  | .ifStmt t b e => .ifStmt (normMut t) (normMutList b) (normMutList e)
  | .whileStmt t b e => .whileStmt (normMut t) (normMutList b) (normMutList e)
  | .forStmt tg it b e =>
      .forStmt (normMut tg) (normMut it) (normMutList b) (normMutList e)
  | .passStmt => .passStmt
  | .binOp l op r => .binOp (normMut l) op (normMut r)
  | .call f args => .call (normMut f) (normMutList args)
  | .attrExpr v a ctx => .attrExpr (normMut v) a ctx
  | .constant c => .constant c

/-- Child loop of `_normalize_ast` over a list-valued field. -/
def normMutList : List Node → List Node
  | [] => []
  | n :: ns => normMut n :: normMutList ns

end

/-- Value returned by `CacheManager._normalize_ast(node)`: `ast.Pass()` for a
standalone string-literal statement, otherwise the argument after its in-place
normalization.  Only the top-level call's return value is used by
`normalize_and_hash`, and there the tree is always a `Module`. -/
def normalizeAst (node : Node) : Node :=
  match node with
  | .exprStmt (.constant (.str _)) => .passStmt
  | n => normMut n

/-- Single-quote character used by `ast.dump` for string fields. -/
def sq : String := "\x27"

/-- Rendering of `ast.Load()` / `ast.Store()` in `ast.dump`. -/
def dumpCtx : Ctx → String
  | .load => "Load()"
  | .store => "Store()"

/-- Rendering of a constant value in `ast.dump`. -/
def dumpConst : Const → String
  | .str s => sq ++ s ++ sq
  | .int n => toString n
  | .bool b => if b then "True" else "False"
  | .noneVal => "None"

/-- Rendering of the positional-argument list of an `ast.arguments` node. -/
def dumpArgs : List String → String
  | [] => ""
  | [a] => "arg(" ++ sq ++ a ++ sq ++ ")"
  | a :: as => "arg(" ++ sq ++ a ++ sq ++ "), " ++ dumpArgs as

mutual

/-- Deterministic serialization of a tree, modelling
`ast.dump(node, annotate_fields=False)`: constructor name applied to positional
fields, list fields bracketed, string fields quoted.  Only equality of
serializations matters to the hash; this rendering is injective on the
modelled fragment. -/
def dump : Node → String
  | .module body => "Module([" ++ dumpItems body ++ "], [])"
  | .functionDef nm args body =>
      "FunctionDef(" ++ sq ++ nm ++ sq ++ ", arguments([], [" ++ dumpArgs args
        ++ "], [], [], [], [], []), [" ++ dumpItems body ++ "], [], [])"
  | .ret v => "Return(" ++ dump v ++ ")"
  | .retNone => "Return(None)"
  | .assign ts v => "Assign([" ++ dumpItems ts ++ "], " ++ dump v ++ ")"
  | .exprStmt v => "Expr(" ++ dump v ++ ")"
  | .ifStmt t b e =>
      "If(" ++ dump t ++ ", [" ++ dumpItems b ++ "], [" ++ dumpItems e ++ "])"
  | .whileStmt t b e =>
      "While(" ++ dump t ++ ", [" ++ dumpItems b ++ "], [" ++ dumpItems e ++ "])"
  | .forStmt tg it b e =>
      "For(" ++ dump tg ++ ", " ++ dump it ++ ", [" ++ dumpItems b ++ "], ["
        ++ dumpItems e ++ "])"
  | .passStmt => "Pass()"
  | .binOp l op r => "BinOp(" ++ dump l ++ ", " ++ op ++ "(), " ++ dump r ++ ")"
  | .call f args => "Call(" ++ dump f ++ ", [" ++ dumpItems args ++ "], [])"
  | .attrExpr v a ctx =>
      "Attribute(" ++ dump v ++ ", " ++ sq ++ a ++ sq ++ ", " ++ dumpCtx ctx ++ ")"
  | .nameExpr id ctx => "Name(" ++ sq ++ id ++ sq ++ ", " ++ dumpCtx ctx ++ ")"
  | .constant c => "Constant(" ++ dumpConst c ++ ")"

/-- Comma-separated rendering of the elements of a list field. -/
def dumpItems : List Node → String
  | [] => ""
  | [n] => dump n
  | n :: ns => dump n ++ ", " ++ dumpItems ns

end

/-- Method `CacheManager.normalize_and_hash` on an already-parsed tree
(`ast.parse` always yields a `Module`; the `SyntaxError` fallback hashes the
raw text and is outside the parsed fragment).  The source returns
`hashlib.sha256(ast.dump(normalized, annotate_fields=False).encode()).hexdigest()`;
the SHA-256 digest is modelled by its input string — a collision-free stand-in
under which two hashes are equal exactly when the digest inputs are equal. -/
def normalize_and_hash (tree : Node) : String :=
  dump (normalizeAst tree)

/-- Snippet `def f(x):` with docstring "doc" followed by `return x`. -/
def snippetDocA : Node :=
  .module [.functionDef "f" ["x"]
    [.exprStmt (.constant (.str "doc")), .ret (.nameExpr "x" .load)]]

/-- The same snippet with the docstring text changed to "other". -/
def snippetDocB : Node :=
  .module [.functionDef "f" ["x"]
    [.exprStmt (.constant (.str "other")), .ret (.nameExpr "x" .load)]]

/-- C1 (code bug witnessed): `snippetDocA` and `snippetDocB` differ only in the
text of a standalone string-literal statement, yet normalization keeps both
docstrings — the `ast.Pass()` replacement computed for them inside
`_normalize_ast` is discarded by the caller's child loop — so the two digest
inputs, and hence the hashes, differ. -/
theorem normalize_and_hash_keeps_docstrings :
    normMut snippetDocA =
      .module [.functionDef "f" ["x"]
        [.exprStmt (.constant (.str "doc")), .ret (.nameExpr "VAR" .load)]]
  ∧ normalize_and_hash snippetDocA ≠ normalize_and_hash snippetDocB := by
  constructor
  · rfl
  · decide

/-- Snippet consisting of the single statement `foo()`. -/
def snippetCallFoo : Node :=
  .module [.exprStmt (.call (.nameExpr "foo" .load) [])]

/-- Snippet consisting of the single statement `bar()`. -/
def snippetCallBar : Node :=
  .module [.exprStmt (.call (.nameExpr "bar" .load) [])]

/-- C2 (code bug witnessed): `foo()` and `bar()` differ only in an external
call name, but `_normalize_ast` rewrites every `ast.Name` — including the
callee of a bare-name call — to "VAR", so both snippets produce the same
normalized serialization and therefore the same SHA-256 hash. -/
theorem normalize_and_hash_erases_call_names :
    snippetCallFoo ≠ snippetCallBar
  ∧ normalize_and_hash snippetCallFoo = normalize_and_hash snippetCallBar := by
  constructor
  · simp [snippetCallFoo, snippetCallBar]
  · rfl

/-! ## Suppression ledger — cores/persistence/lance_manager.py, schemas.py,
cache.py and facade.py.  The LanceDB tables are modelled as in-memory lists;
`normalize_and_hash` on raw code text (which would require a Python parser) is
abstracted as a parameter `hashFn`, exactly the role it plays in these
methods. -/

/-- Pydantic schema `ViolationRecord` (payload fields that no modelled
operation reads — file path, severity, message, embedding, timestamp — are
elided). -/
structure ViolationRecord where
  id : String
  project_path : String
  snippet_hash : String
  ignored : Bool
deriving Repr, DecidableEq

/-- Pydantic schema `IgnoreRecord` (timestamp elided). -/
structure IgnoreRecord where
  id : String
  violation_id : String
  snippet_hash : String
  reason : String
  invalidated : Bool
  invalidation_reason : Option String
deriving Repr, DecidableEq

/-- The two LanceDB tables managed by `LanceManager`. -/
structure Ledger where
  violations : List ViolationRecord
  ignores : List IgnoreRecord
deriving Repr, DecidableEq

/-- Method `LanceManager.add_violation` (the uuid, if assigned, is part of the
supplied record). -/
def add_violation (L : Ledger) (v : ViolationRecord) : Ledger :=
  { L with violations := L.violations ++ [v] }

/-- Method `LanceManager._mark_violation_ignored`: update `ignored := True`
where `id` matches. -/
def mark_violation_ignored (L : Ledger) (violation_id : String) : Ledger :=
  { L with
      violations := L.violations.map
        (fun v => if v.id == violation_id then { v with ignored := true } else v) }

/-- Method `LanceManager.add_ignore`: append the record, then mark the
referenced violation ignored. -/
def add_ignore (L : Ledger) (ignore : IgnoreRecord) : Ledger :=
  mark_violation_ignored { L with ignores := L.ignores ++ [ignore] }
    ignore.violation_id

/-- Method `LanceManager.check_ignore_status`: first row with the given hash
and `invalidated = false` (the `.limit(1)` lookup). -/
def check_ignore_status (L : Ledger) (snippet_hash : String) : Option IgnoreRecord :=
  (L.ignores.filter
    (fun r => r.snippet_hash == snippet_hash && r.invalidated == false)).head?

/-- Method `LanceManager.invalidate_ignore`: update every row with the given
hash and `invalidated = false`, setting the flag and the reason. -/
def invalidate_ignore (L : Ledger) (snippet_hash reason : String) : Ledger :=
  { L with
      ignores := L.ignores.map
        (fun r =>
          if r.snippet_hash == snippet_hash && r.invalidated == false then
            { r with invalidated := true, invalidation_reason := some reason }
          else r) }

/-- Method `CacheManager.is_ignored` (via `check_ignore_status`). -/
def is_ignored (hashFn : String → String) (L : Ledger) (code : String) : Bool :=
  (check_ignore_status L (hashFn code)).isSome

/-- Method `CacheManager.invalidate_if_changed`. -/
def invalidate_if_changed (hashFn : String → String) (L : Ledger)
    (old_code new_code : String) : Ledger :=
  if hashFn old_code ≠ hashFn new_code then
    invalidate_ignore L (hashFn old_code) "Code structure changed"
  else L

/-- Method `PersistenceFacade.ignore_violation`: build the `IgnoreRecord`
(fresh uuid supplied as `uid`) and store it through `add_ignore`. -/
def ignore_violation (hashFn : String → String) (L : Ledger)
    (uid violation_id code reason : String) : Ledger :=
  add_ignore L
    { id := uid
      violation_id := violation_id
      snippet_hash := hashFn code
      reason := reason
      invalidated := false
      invalidation_reason := none }

/-- The ledger-mutating operations reachable through the persistence facade. -/
inductive LedgerOp where
  | storeViolation (v : ViolationRecord)
  | ignoreViolation (uid violation_id code reason : String)
  | invalidateIfChanged (old_code new_code : String)

/-- Effect of one facade operation on the ledger state. -/
def stepOp (hashFn : String → String) (L : Ledger) : LedgerOp → Ledger
  | .storeViolation v => add_violation L v
  | .ignoreViolation uid vid code reason => ignore_violation hashFn L uid vid code reason
  | .invalidateIfChanged old_code new_code => invalidate_if_changed hashFn L old_code new_code

/-- Effect of a sequence of facade operations. -/
def runOps (hashFn : String → String) (L : Ledger) (ops : List LedgerOp) : Ledger :=
  ops.foldl (stepOp hashFn) L

lemma invalidated_persists_step (hashFn : String → String) (L : Ledger)
    (op : LedgerOp) (r : IgnoreRecord) (hr : r ∈ L.ignores)
    (hinv : r.invalidated = true) : r ∈ (stepOp hashFn L op).ignores := by
  cases op with
  | storeViolation v => exact hr
  | ignoreViolation uid vid code reason =>
    simp only [stepOp, ignore_violation, add_ignore, mark_violation_ignored]
    exact List.mem_append_left _ hr
  | invalidateIfChanged old_code new_code =>
    simp only [stepOp, invalidate_if_changed]
    split_ifs with h
    · simp only [invalidate_ignore]
      refine List.mem_map.mpr ⟨r, hr, ?_⟩
      rw [hinv]
      simp
    · exact hr

lemma check_after_invalidate (L : Ledger) (h reason : String) :
    check_ignore_status (invalidate_ignore L h reason) h = none := by
  simp only [check_ignore_status, invalidate_ignore]
  rw [List.head?_eq_none_iff, List.filter_eq_nil_iff]
  intro r hr
  rcases List.mem_map.mp hr with ⟨r0, hr0, hmap⟩
  by_cases hcond : (r0.snippet_hash == h && r0.invalidated == false) = true
  · rw [if_pos hcond] at hmap
    subst hmap
    simp
  · rw [if_neg hcond] at hmap
    subst hmap
    exact hcond

/-- C5: recording a suppression makes `is_ignored` true; when the two hashes
differ, `invalidate_if_changed` invalidates every active suppression for the
old hash and `is_ignored` on the old code becomes false; when the hashes agree
the ledger is unchanged; and a record once invalidated survives, still
invalidated, any sequence of later facade operations. -/
theorem suppression_lifecycle (hashFn : String → String) (L : Ledger)
    (uid vid code reason old_code new_code : String) :
    is_ignored hashFn (ignore_violation hashFn L uid vid code reason) code = true
  ∧ (hashFn old_code ≠ hashFn new_code →
      (∀ r ∈ (invalidate_if_changed hashFn L old_code new_code).ignores,
          r.snippet_hash = hashFn old_code → r.invalidated = true)
      ∧ is_ignored hashFn (invalidate_if_changed hashFn L old_code new_code) old_code
          = false)
  ∧ (hashFn old_code = hashFn new_code →
      invalidate_if_changed hashFn L old_code new_code = L)
  ∧ (∀ ops : List LedgerOp, ∀ r ∈ L.ignores, r.invalidated = true →
      r ∈ (runOps hashFn L ops).ignores) := by
  refine ⟨?_, fun hne => ⟨?_, ?_⟩, fun heq => ?_, ?_⟩
  · simp only [is_ignored, ignore_violation, add_ignore, mark_violation_ignored,
      check_ignore_status]
    rw [List.head?_isSome, List.filter_append]
    intro hcontra
    rcases List.append_eq_nil.mp hcontra with ⟨-, h2⟩
    simp at h2
  · intro r hr hhash
    rw [invalidate_if_changed, if_pos hne] at hr
    simp only [invalidate_ignore] at hr
    rcases List.mem_map.mp hr with ⟨r0, hr0, hmap⟩
    by_cases hcond : (r0.snippet_hash == hashFn old_code && r0.invalidated == false) = true
    · rw [if_pos hcond] at hmap
      rw [← hmap]
    · rw [if_neg hcond] at hmap
      subst hmap
      simp only [hhash] at hcond
      simpa using hcond
  · rw [invalidate_if_changed, if_pos hne]
    simp [is_ignored, check_after_invalidate]
  · simp [invalidate_if_changed, heq]
  · intro ops
    induction ops generalizing L with
    | nil => intro r hr _; exact hr
    | cons op ops ih =>
      intro r hr hinv
      exact ih (stepOp hashFn L op) r (invalidated_persists_step hashFn L op r hr hinv) hinv

/-- Witness for `suppression_lifecycle` with the identity hash function and an
empty initial ledger: recording a suppression for "code" makes it ignored, and
an edit of "code" to "other" invalidates it so `is_ignored` flips to false. -/
theorem suppression_lifecycle_witness :
    ((fun s => s) "code" ≠ (fun s => s) "other")
  ∧ is_ignored (fun s => s)
      (ignore_violation (fun s => s) ⟨[], []⟩ "u1" "v1" "code" "why") "code" = true
  ∧ is_ignored (fun s => s)
      (invalidate_if_changed (fun s => s)
        (ignore_violation (fun s => s) ⟨[], []⟩ "u1" "v1" "code" "why")
        "code" "other")
      "code" = false :=
  ⟨by decide,
   (suppression_lifecycle (fun s => s) ⟨[], []⟩ "u1" "v1" "code" "why" "code"
      "other").1,
   ((suppression_lifecycle (fun s => s)
       (ignore_violation (fun s => s) ⟨[], []⟩ "u1" "v1" "code" "why")
       "u1" "v1" "code" "why" "code" "other").2.1 (by decide)).2⟩

/-! ## Structural graph store — cores/structure/graph/kuzu_manager.py -/

/-- Node table `File`. -/
structure FileNode where
  path : String
  language : String
  lines_of_code : ℤ
deriving Repr, DecidableEq

/-- Node table `Class` (id = "file_path::name"). -/
structure ClassRow where
  id : String
  name : String
  file_path : String
  start_line : ℤ
  end_line : ℤ
  is_abstract : Bool
  method_count : ℤ
deriving Repr, DecidableEq

/-- Node table `Function` (id = "file_path::name"). -/
structure FunctionRow where
  id : String
  name : String
  file_path : String
  start_line : ℤ
  end_line : ℤ
  complexity : ℤ
  parent_class : String
deriving Repr, DecidableEq

/-- The graph database state: node tables plus the DEFINES (file path,
class id), CONTAINS (class id, function id) and IMPORTS (from path, to path,
imported names) relationship tables. -/
structure GraphState where
  files : List FileNode
  classes : List ClassRow
  functions : List FunctionRow
  defines : List (String × String)
  containsRel : List (String × String)
  imports : List (String × String × List String)
deriving Repr, DecidableEq

/-- Method `KuzuManager.delete_file`, statement for statement.  The first two
statements detach-delete the Class and Function rows whose `file_path` matches
the bound parameter, removing the edges that touch them.  The third statement,
`MATCH (f:File {path: <dollar>path}) DETACH DELETE f`, is executed with the
parameter map `{"file": file_path}` — the key does not match the placeholder
`path` referenced by the query, so Kuzu rejects the statement ("Parameter path
not found") and no File row or IMPORTS edge is deleted; under a
null-comparison reading of an unbound parameter the match set is empty with
the same net effect on the File table.  The returned flag carries the error of
that third statement. -/
def delete_file (g : GraphState) (file_path : String) :
    GraphState × Except String Unit :=
  let deletedClassIds := (g.classes.filter (fun c => c.file_path == file_path)).map (·.id)
  let g1 : GraphState :=
    { g with
        classes := g.classes.filter (fun c => ¬ c.file_path == file_path)
        defines := g.defines.filter (fun e => ¬ deletedClassIds.contains e.2)
        containsRel := g.containsRel.filter (fun e => ¬ deletedClassIds.contains e.1) }
  let deletedFunIds := (g1.functions.filter (fun f => f.file_path == file_path)).map (·.id)
  let g2 : GraphState :=
    { g1 with
        functions := g1.functions.filter (fun f => ¬ f.file_path == file_path)
        containsRel := g1.containsRel.filter (fun e => ¬ deletedFunIds.contains e.2) }
  let params : List (String × String) := [("file", file_path)]
  match params.lookup "path" with
  | none => (g2, Except.error "Parameter path not found.")
  | some v =>
      ({ g2 with
          files := g2.files.filter (fun f => ¬ f.path == v)
          imports := g2.imports.filter (fun e => ¬ e.1 == v && ¬ e.2.1 == v) },
       Except.ok ())

/-- A concrete graph: files a.py and b.py, one class and one function owned by
a.py, the DEFINES/CONTAINS edges between them, and an IMPORTS edge
a.py → b.py. -/
def gDemo : GraphState :=
  { files := [⟨"a.py", "python", 10⟩, ⟨"b.py", "python", 5⟩]
    classes := [⟨"a.py::C", "C", "a.py", 1, 5, false, 2⟩]
    functions := [⟨"a.py::f", "f", "a.py", 6, 8, 1, ""⟩]
    defines := [("a.py", "a.py::C")]
    containsRel := [("a.py::C", "a.py::f")]
    imports := [("a.py", "b.py", ["x"])] }

/-- C6 (code bug witnessed): `delete_file "a.py"` removes the class and
function rows (and the DEFINES/CONTAINS edges touching them), but the File
node itself and its IMPORTS edge survive, because the third delete statement
binds its parameter under the key "file" while the query references the
placeholder `path`; the statement fails and the graph is left with the file
still present. -/
theorem delete_file_leaves_file_node :
    (delete_file gDemo "a.py").1.classes = []
  ∧ (delete_file gDemo "a.py").1.functions = []
  ∧ (delete_file gDemo "a.py").1.defines = []
  ∧ (delete_file gDemo "a.py").1.containsRel = []
  ∧ (delete_file gDemo "a.py").1.files = gDemo.files
  ∧ (delete_file gDemo "a.py").1.imports = gDemo.imports
  ∧ (delete_file gDemo "a.py").2 = Except.error "Parameter path not found." :=
  ⟨rfl, rfl, rfl, rfl, rfl, rfl, rfl⟩

/-! ## Dependency queries — cores/structure/queries.py -/

/-- All ways to select one element of a list together with the remaining
elements; used to enumerate relationship-distinct traversals. -/
def pick {α : Type} : List α → List (α × List α)
  | [] => []
  | a :: as => (a, as) :: (pick as).map (fun p => (p.1, a :: p.2))

/-- Node sequences of every non-empty relationship-distinct walk (trail) from
`cur` to `target` over the given edge list: the match semantics of the
variable-length pattern `-[:IMPORTS*]->` in the cycle query, under which a
path may not traverse the same relationship twice.  The fuel bounds the
recursion depth; any fuel of at least the number of edges enumerates every
trail, since each step consumes one edge. -/
def trailsF : Nat → List (String × String) → String → String → List (List String)
  | 0, _, _, _ => []
  | fuel + 1, edges, cur, target =>
    (pick edges).flatMap
      (fun pr =>
        if pr.1.1 == cur then
          (if pr.1.2 == target then [[cur, target]] else [])
            ++ (trailsF fuel pr.2 pr.1.2 target).map (fun q => cur :: q)
        else [])

/-- Method `ViolationQueries.find_circular_dependencies`: the Cypher query
`MATCH path = (f1:File)-[:IMPORTS*]->(f1) WHERE length(path) > 1 RETURN
[node IN nodes(path) | node.path] AS cycle`.  Every File node is tried as the
start `f1`; every relationship-distinct closed traversal from it is a matched
path; `length(path)` counts relationships (one less than the node sequence);
the returned row is the node-path list with the start repeated at the end. -/
def find_circular_dependencies (g : GraphState) : List (List String) :=
  let edges := g.imports.map (fun e => (e.1, e.2.1))
  (g.files.map (·.path)).flatMap
    (fun f1 =>
      (trailsF (edges.length + 1) edges f1 f1).filter (fun p => p.length - 1 > 1))

/-- A 3-file import ring a.py → b.py → c.py → a.py. -/
def gRing : GraphState :=
  { files := [⟨"a.py", "python", 1⟩, ⟨"b.py", "python", 1⟩, ⟨"c.py", "python", 1⟩]
    classes := []
    functions := []
    defines := []
    containsRel := []
    imports := [("a.py", "b.py", []), ("b.py", "c.py", []), ("c.py", "a.py", [])] }

/-- C7 counterexample: on the 3-file ring the query returns three rows — one
closed traversal per start node — not exactly one cycle. -/
theorem find_circular_ring_not_unique :
    (find_circular_dependencies gRing).length = 3
  ∧ (find_circular_dependencies gRing).length ≠ 1 := by
  constructor
  · rfl
  · decide

lemma pick_mem {α : Type} :
    ∀ (l : List α) (a : α) (rest : List α),
      (a, rest) ∈ pick l → a ∈ l ∧ ∀ x ∈ rest, x ∈ l := by
  intro l
  induction l with
  | nil => intro a rest h; cases h
  | cons b bs ih =>
    intro a rest h
    rcases List.mem_cons.mp h with heq | hmem
    · injection heq with h1 h2
      subst h1; subst h2
      exact ⟨List.mem_cons_self _ _, fun x hx => List.mem_cons_of_mem _ hx⟩
    · rcases List.mem_map.mp hmem with ⟨p, hp, hpe⟩
      injection hpe with h1 h2
      subst h1; subst h2
      rcases ih p.1 p.2 hp with ⟨hmem1, hsub⟩
      refine ⟨List.mem_cons_of_mem b hmem1, fun x hx => ?_⟩
      rcases List.mem_cons.mp hx with rfl | hx2
      · exact List.mem_cons_self x bs
      · exact List.mem_cons_of_mem b (hsub x hx2)

lemma trailsF_rank (rank : String → ℕ) :
    ∀ (fuel : Nat) (edges : List (String × String)) (cur target : String),
      (∀ e ∈ edges, rank e.1 < rank e.2) →
      ∀ p ∈ trailsF fuel edges cur target, rank cur < rank target := by
  intro fuel
  induction fuel with
  | zero => intro edges cur target _ p hp; cases hp
  | succ fuel ih =>
    intro edges cur target h p hp
    rcases List.mem_flatMap.mp hp with ⟨pr, hpr, hpf⟩
    by_cases hcur : (pr.1.1 == cur) = true
    · rw [if_pos hcur] at hpf
      have he1 : pr.1.1 = cur := by simpa using hcur
      rcases pick_mem edges pr.1 pr.2 (by simpa using hpr) with ⟨hmem, hsub⟩
      rcases List.mem_append.mp hpf with hleft | hright
      · by_cases htgt : (pr.1.2 == target) = true
        · have he2 : pr.1.2 = target := by simpa using htgt
          have := h pr.1 hmem
          rw [he1, he2] at this
          exact this
        · rw [if_neg htgt] at hleft
          cases hleft
      · rcases List.mem_map.mp hright with ⟨q, hq, -⟩
        have hrest : ∀ e ∈ pr.2, rank e.1 < rank e.2 := fun e he => h e (hsub e he)
        have h2 : rank pr.1.2 < rank target := ih pr.2 pr.1.2 target hrest q hq
        have h1 : rank pr.1.1 < rank pr.1.2 := h pr.1 hmem
        rw [he1] at h1
        exact h1.trans h2
    · rw [if_neg hcur] at hpf
      cases hpf

/-- C7 amended: the 3-file ring is reported once per member file — the three
rotations of the same cycle — and a graph admitting a rank function strictly
increasing along every IMPORTS edge (in particular any acyclic import graph)
yields no rows. -/
theorem find_circular_spec :
    find_circular_dependencies gRing =
      [["a.py", "b.py", "c.py", "a.py"],
       ["b.py", "c.py", "a.py", "b.py"],
       ["c.py", "a.py", "b.py", "c.py"]]
  ∧ ∀ (g : GraphState) (rank : String → ℕ),
      (∀ e ∈ g.imports, rank e.1 < rank e.2.1) →
      find_circular_dependencies g = [] := by
  refine ⟨rfl, ?_⟩
  intro g rank h
  simp only [find_circular_dependencies]
  rw [List.flatMap_eq_nil_iff]
  intro f1 _
  have htrails : trailsF ((g.imports.map (fun e => (e.1, e.2.1))).length + 1)
      (g.imports.map (fun e => (e.1, e.2.1))) f1 f1 = [] := by
    rw [List.eq_nil_iff_forall_not_mem]
    intro p hp
    have hedges : ∀ e ∈ g.imports.map (fun e => (e.1, e.2.1)),
        rank e.1 < rank e.2 := by
      intro e he
      rcases List.mem_map.mp he with ⟨x, hx, rfl⟩
      exact h x hx
    exact absurd (trailsF_rank rank _ _ f1 f1 hedges p hp) (lt_irrefl _)
  rw [htrails]
  rfl

/-- A 2-file acyclic import graph a.py → b.py. -/
def gChain : GraphState :=
  { files := [⟨"a.py", "python", 1⟩, ⟨"b.py", "python", 1⟩]
    classes := []
    functions := []
    defines := []
    containsRel := []
    imports := [("a.py", "b.py", ["x"])] }

/-- Rank function witnessing that `gChain` is acyclic. -/
def rankChain : String → ℕ := fun s => if s == "a.py" then 0 else 1

/-- Witness for `find_circular_spec`: on the acyclic two-file chain the query
returns no rows. -/
theorem find_circular_spec_witness :
    (∀ e ∈ gChain.imports, rankChain e.1 < rankChain e.2.1)
  ∧ find_circular_dependencies gChain = [] :=
  ⟨by decide, find_circular_spec.2 gChain rankChain (by decide)⟩

/-! ## Method naming analysis — cores/analysis/rules/srp/method_analyzer.py -/

/-- Method `MethodAnalyzer.calculate_concert_diversity` on a category-count
dictionary (association list, one entry per category).  Python's float
division `count / total_methods` and power `proportion ** 0.5` are modelled
over the reals, the latter as the real square root of the (non-negative)
proportion. -/
noncomputable def calculate_concert_diversity
    (category_counts : List (String × ℕ)) : ℝ :=
  if category_counts.isEmpty then 0.0
  else
    let total_methods : ℕ := (category_counts.map Prod.snd).sum
    let num_categories : ℕ := category_counts.length
    if num_categories = 1 then 0.0
    else
      let entropy : ℝ := category_counts.foldl
        (fun acc p =>
          let proportion : ℝ := (p.2 : ℝ) / (total_methods : ℝ)
          if proportion > 0 then acc - proportion * Real.sqrt proportion else acc)
        0.0
      let max_entropy : ℝ := 1.0
      min (entropy / max_entropy) 1.0

/-- C8 (code bug witnessed): on the two-category distribution data ↦ 1,
validation ↦ 1 the "diversity" evaluates to min(0 − ½·√½ − ½·√½, 1) = −√½, a
negative number: the loop subtracts the positive terms p·√p from zero, so
every distribution with at least two categories scores below 0.0 instead of
inside [0, 1]. -/
theorem concert_diversity_negative :
    calculate_concert_diversity [("data", 1), ("validation", 1)] < 0 := by
  unfold calculate_concert_diversity
  norm_num [List.foldl]

/-! ## Semantic clustering — cores/analysis/rules/srp/semantic_analyzer.py -/

/-- Method `SemanticAnalyzer.cluster_methods`.  The two external collaborators
are parameters: `vectorize_batch`, the embedding service, whose failure (a
raised exception) is modelled by `Except.error`, and `dbscan_labels`, the
DBSCAN clustering returning one label per embedding with −1 for noise.  The
source contains no exception handler, so a service failure propagates through
the call.  `num_clusters` is `len(set(labels)) − (1 if −1 in labels else 0)`.  -/
def cluster_methods
    (vectorize_batch : List String → Except String (List (List ℚ)))
    (dbscan_labels : List (List ℚ) → List ℤ)
    (method_signatures : List String) : Except String (ℕ × ℚ) :=
  if method_signatures.length < 2 then Except.ok (1, 0.0)
  else
    match vectorize_batch method_signatures with
    | Except.error e => Except.error e
    | Except.ok embeddings =>
      let labels := dbscan_labels embeddings
      let num_clusters : ℕ :=
        labels.eraseDups.length - (if labels.contains (-1) then 1 else 0)
      let separation_score : ℚ :=
        if num_clusters ≤ 1 then 0.0 else min (0.3 * (num_clusters : ℚ)) 1.0
      Except.ok (num_clusters, separation_score)

/-- An embedding service that fails, used as a concrete counterexample. -/
def failingVectorizer : List String → Except String (List (List ℚ)) :=
  fun _ => Except.error "embedding service unavailable"

/-- C9 counterexample: with two method signatures and a failing embedding
service, `cluster_methods` surfaces the error — the evaluation does not
complete with a degraded diversity of 0. -/
theorem cluster_methods_error_not_degraded :
    cluster_methods failingVectorizer (fun _ => []) ["def a()", "def b()"]
      = Except.error "embedding service unavailable" := rfl

/-- C9 amended: an embedding-service failure propagates out of
`cluster_methods` unchanged whenever at least two signatures are supplied —
the SRP evaluation aborts rather than degrading the signal — and only with
fewer than two signatures is the service skipped and (1 cluster, 0.0
diversity) returned without consulting it. -/
theorem cluster_methods_error_propagation
    (vb : List String → Except String (List (List ℚ)))
    (db : List (List ℚ) → List ℤ) (sigs : List String) (e : String) :
    (2 ≤ sigs.length → vb sigs = Except.error e →
      cluster_methods vb db sigs = Except.error e)
  ∧ (sigs.length < 2 → cluster_methods vb db sigs = Except.ok (1, 0.0)) := by
  constructor
  · intro hlen herr
    unfold cluster_methods
    rw [if_neg (not_lt.mpr hlen), herr]
  · intro hlen
    unfold cluster_methods
    rw [if_pos hlen]

/-- Witness for `cluster_methods_error_propagation` at the failing service and
two concrete signatures. -/
theorem cluster_methods_error_propagation_witness :
    2 ≤ (["def a()", "def b()"] : List String).length
  ∧ failingVectorizer ["def a()", "def b()"]
      = Except.error "embedding service unavailable"
  ∧ cluster_methods failingVectorizer (fun _ => []) ["def a()", "def b()"]
      = Except.error "embedding service unavailable" :=
  ⟨by decide, rfl,
   (cluster_methods_error_propagation failingVectorizer (fun _ => [])
       ["def a()", "def b()"] "embedding service unavailable").1 (by decide) rfl⟩

end WellActually
